import Mathlib

/-!
Verification of the derived league-statistics layer and frontend glue of the
commish-command fantasy-football dashboard.

The repository ships the Next.js frontend (pages, components, API client) and a
shell test-suite; the backend aggregation service is referenced through the API
client but its source is not part of the tree.  Definitions below therefore come
in two kinds:

* shallow embeddings of frontend source (API path construction, response
  handling, filtering and sorting on the NFL-teams page, the standings page
  loader, the AI-narrative fetchers);
* models of the backend aggregation formulas, each marked
  `Modelled from the spec:` in its doc string, faithful to the specification's
  wording (power score, head-to-head matrix, luck analysis, standings order,
  draft grading).

Scores and point totals are modelled as rationals, counts as naturals.
-/

namespace Commish

/-! ### Power rankings (spec §4.2) -/

/-- Modelled from the spec: the backend power-ranking computation is not in the
repository source; a member's career aggregates, with each component already
scaled to the common 0–100 range demanded by the spec. -/
structure MemberCareer where
  win_pct : ℚ
  championship_rate : ℚ
  playoff_rate : ℚ
  points_per_game_norm : ℚ
  seasons_played_norm : ℚ
deriving DecidableEq

/-- Modelled from the spec: the five weights of the power-score formula,
`0.35, 0.25, 0.20, 0.10, 0.10`. -/
def powerWeights : List ℚ := [35/100, 25/100, 20/100, 10/100, 10/100]

/-- Modelled from the spec: power score is the weighted linear combination
`0.35*win_pct + 0.25*championship_rate + 0.20*playoff_rate
 + 0.10*normalized_points_per_game + 0.10*normalized_seasons_played`. -/
def powerScore (m : MemberCareer) : ℚ :=
  35/100 * m.win_pct + 25/100 * m.championship_rate + 20/100 * m.playoff_rate +
    10/100 * m.points_per_game_norm + 10/100 * m.seasons_played_norm

/-- Every component of the career record lies in the common 0–100 range. -/
def MemberCareer.scaled (m : MemberCareer) : Prop :=
  0 ≤ m.win_pct ∧ m.win_pct ≤ 100 ∧
  0 ≤ m.championship_rate ∧ m.championship_rate ≤ 100 ∧
  0 ≤ m.playoff_rate ∧ m.playoff_rate ≤ 100 ∧
  0 ≤ m.points_per_game_norm ∧ m.points_per_game_norm ≤ 100 ∧
  0 ≤ m.seasons_played_norm ∧ m.seasons_played_norm ≤ 100

instance (m : MemberCareer) : Decidable m.scaled := by
  unfold MemberCareer.scaled; infer_instance

/-! ### Matchups and the head-to-head matrix (spec §3, §4.4) -/

/-- A historical matchup row of the data model (spec §3): season, week, the two
team references (member ids) and their scores. -/
structure Matchup where
  season : ℕ
  week : ℕ
  memberA : ℕ
  memberB : ℕ
  scoreA : ℚ
  scoreB : ℚ
deriving DecidableEq

/-- The score member `x` posted in matchup `m` (`m` is assumed to involve `x`). -/
def scoreOf (x : ℕ) (m : Matchup) : ℚ :=
  if m.memberA = x then m.scoreA else m.scoreB

/-- Whether matchup `m` is a game between members `x` and `y` (in either slot). -/
def involvesPair (x y : ℕ) (m : Matchup) : Bool :=
  (decide (m.memberA = x) && decide (m.memberB = y)) ||
    (decide (m.memberA = y) && decide (m.memberB = x))

/-- One cell of the head-to-head matrix: record and point totals of the row
member against the column member. -/
structure H2HRecord where
  wins : ℕ
  losses : ℕ
  ties : ℕ
  points_for : ℚ
  points_against : ℚ
deriving DecidableEq

/-- Modelled from the spec: the backend head-to-head aggregation is not in the
repository source; for the ordered pair `(x, y)` it aggregates all historical
matchups between them into wins/losses/ties and point totals (spec §4.4). -/
def h2hRecord (ms : List Matchup) (x y : ℕ) : H2HRecord :=
  let games := ms.filter (involvesPair x y)
  { wins := (games.filter fun m => decide (scoreOf y m < scoreOf x m)).length
    losses := (games.filter fun m => decide (scoreOf x m < scoreOf y m)).length
    ties := (games.filter fun m => decide (scoreOf x m = scoreOf y m)).length
    points_for := (games.map (scoreOf x)).sum
    points_against := (games.map (scoreOf y)).sum }

/-- Modelled from the spec: the full head-to-head matrix holds one cell per
ordered pair of distinct members; self-pairs are excluded (spec §4.4). -/
def h2hMatrix (members : List ℕ) (ms : List Matchup) : List (ℕ × ℕ × H2HRecord) :=
  members.flatMap fun x =>
    (members.filter fun y => decide (y ≠ x)).map fun y => (x, y, h2hRecord ms x y)

/-! ### Luck analysis (spec §4.3) -/

/-- All (member, score) entries posted league-wide in one week's matchups. -/
def weekEntries (ms : List Matchup) : List (ℕ × ℚ) :=
  ms.flatMap fun m => [(m.memberA, m.scoreA), (m.memberB, m.scoreB)]

/-- Modelled from the spec: the number of other teams a score `s` posted by
member `x` would have beaten among the week's entries `w` (spec §4.3). -/
def wouldBeatCount (s : ℚ) (x : ℕ) (w : List (ℕ × ℚ)) : ℕ :=
  (w.filter fun e => decide (e.1 ≠ x) && decide (e.2 < s)).length

/-- Modelled from the spec: member `x`'s expected wins contributed by one week:
for each score `x` posted that week, the number of other teams it would have
beaten (spec §4.3). -/
def expectedWinsWeek (x : ℕ) (ms : List Matchup) : ℕ :=
  ((weekEntries ms).filter fun e => decide (e.1 = x)).foldr
    (fun e acc => wouldBeatCount e.2 x (weekEntries ms) + acc) 0

/-- Member `x`'s actual wins in one week's matchups. -/
def actualWinsWeek (x : ℕ) (ms : List Matchup) : ℕ :=
  (ms.filter fun m =>
      (decide (m.memberA = x) && decide (m.scoreB < m.scoreA)) ||
        (decide (m.memberB = x) && decide (m.scoreA < m.scoreB))).length

/-- One row of the luck-analysis output (spec §6). -/
structure LuckEntry where
  member : ℕ
  actual_wins : ℕ
  expected_wins : ℕ
  luck_factor : ℤ
deriving DecidableEq

/-- Modelled from the spec: the luck-analysis row for member `x` over the
season's weeks: expected wins summed across weeks, luck factor = actual wins
minus expected wins (spec §4.3). -/
def luckEntry (weeks : List (List Matchup)) (x : ℕ) : LuckEntry :=
  { member := x
    actual_wins := (weeks.map (actualWinsWeek x)).sum
    expected_wins := (weeks.map (expectedWinsWeek x)).sum
    luck_factor := ((weeks.map (actualWinsWeek x)).sum : ℤ) -
      ((weeks.map (expectedWinsWeek x)).sum : ℤ) }

/-- Modelled from the spec: the luck analysis lists one row per member. -/
def luckAnalysis (members : List ℕ) (weeks : List (List Matchup)) : List LuckEntry :=
  members.map (luckEntry weeks)

/-! ### Season standings (spec §4.1) -/

/-- A team-season row as the standings aggregator consumes it (spec §3). -/
structure TeamSeason where
  member : ℕ
  wins : ℕ
  losses : ℕ
  points_for : ℚ
deriving DecidableEq

/-- Modelled from the spec: the standings order — wins descending, ties broken
by points-for descending (spec §4.1). -/
def standingsLE (a b : TeamSeason) : Prop :=
  b.wins < a.wins ∨ (a.wins = b.wins ∧ b.points_for ≤ a.points_for)

instance : DecidableRel standingsLE := fun a b => by
  unfold standingsLE; infer_instance

instance : IsTotal TeamSeason standingsLE where
  total a b := by
    unfold standingsLE
    rcases lt_trichotomy a.wins b.wins with h | h | h
    · right; left; exact h
    · rcases le_total b.points_for a.points_for with hp | hp
      · left; right; exact ⟨h, hp⟩
      · right; right; exact ⟨h.symm, hp⟩
    · left; left; exact h

instance : IsTrans TeamSeason standingsLE where
  trans a b c hab hbc := by
    unfold standingsLE at *
    rcases hab with h1 | ⟨h1, h1p⟩ <;> rcases hbc with h2 | ⟨h2, h2p⟩
    · left; omega
    · left; omega
    · left; omega
    · right; exact ⟨by omega, le_trans h2p h1p⟩

/-- Modelled from the spec: ranked standings are the team-season rows sorted by
the documented order (spec §4.1). -/
def standings (teams : List TeamSeason) : List TeamSeason :=
  List.insertionSort standingsLE teams

/-- Concrete season used by the standings witness: a 10-4 team with the
league's highest points-for, a 10-4 team behind on points, an 8-6 team. -/
def demoTeams : List TeamSeason :=
  [⟨1, 10, 4, 1500⟩, ⟨2, 10, 4, 1400⟩, ⟨3, 8, 6, 1450⟩]

/-- The top team of `demoTeams`. -/
def demoTopTeam : TeamSeason := ⟨1, 10, 4, 1500⟩

/-- Concrete week of matchups used by witnesses. -/
def demoWeek : List Matchup := [⟨2020, 1, 1, 2, 100, 90⟩]

/-! ### AI narrative fetchers (standings/page.tsx, AISidebar.tsx) -/

/-- Result of an awaited fetch call: the resolved value, or the thrown error
message. -/
inductive FetchResult (α : Type) where
  | ok (val : α)
  | err (msg : String)
deriving DecidableEq

/-- Payload of checkAIStatus (lib/api.ts /api/ai/status). -/
structure AIStatus where
  available : Bool
deriving DecidableEq

/-- AI-related component state of the standings / records / drafts pages. -/
structure AIState where
  aiAvailable : Bool
  aiNarrative : Option String
  aiLoading : Bool
deriving DecidableEq

/-- The try-block of fetchAINarrative (standings/page.tsx lines 83–100; the
records and drafts pages share the shape): check AI status first; if
unavailable set the capability flag and return; otherwise mark loading, clear
the narrative and request the summary.  An error carries the state at the
throw point. -/
def aiTryBody (st : AIState) (statusRes : FetchResult AIStatus)
    (summaryRes : FetchResult String) : Except (String × AIState) AIState :=
  match statusRes with
  | .err e => .error (e, st)
  | .ok status =>
    if status.available then
      let st1 : AIState := { st with aiLoading := true, aiNarrative := none }
      match summaryRes with
      | .ok n => .ok { st1 with aiNarrative := some n }
      | .err e => .error (e, st1)
    else
      .ok { st with aiAvailable := false }

/-- fetchAINarrative (standings/page.tsx lines 82–106): the catch block only
logs, and the finally block clears the loading flag. -/
def fetchAINarrative (st : AIState) (statusRes : FetchResult AIStatus)
    (summaryRes : FetchResult String) : AIState :=
  let st2 :=
    match aiTryBody st statusRes summaryRes with
    | .ok s => s
    | .error (_, s) => s
  { st2 with aiLoading := false }

/-- The standings page renders the AI recap block only when the capability
flag is set (standings/page.tsx line 148; records/page.tsx line 96). -/
def rendersAIBlock (st : AIState) : Bool :=
  st.aiAvailable

/-- Component state of AISidebar (AISidebar.tsx lines 13–18). -/
structure SidebarState where
  narrative : String
  error : Option String
  isLoading : Bool
  isAvailable : Bool
deriving DecidableEq

/-- The try-block of AISidebar.fetchSummary (AISidebar.tsx lines 33–53):
loading is set and the error cleared before the status check; an unavailable
status clears the capability flag and returns early. -/
def sidebarTryBody (st : SidebarState) (statusRes : FetchResult AIStatus)
    (summaryRes : FetchResult String) : Except (String × SidebarState) SidebarState :=
  let st0 : SidebarState := { st with isLoading := true, error := none }
  match statusRes with
  | .err e => .error (e, st0)
  | .ok status =>
    if status.available then
      match summaryRes with
      | .ok n => .ok { st0 with narrative := n }
      | .err e => .error (e, st0)
    else
      .ok { st0 with isAvailable := false, isLoading := false }

/-- AISidebar.fetchSummary (AISidebar.tsx lines 24–59): the catch block stores
the error message in state, and the finally block clears the loading flag. -/
def fetchSummary (st : SidebarState) (statusRes : FetchResult AIStatus)
    (summaryRes : FetchResult String) : SidebarState :=
  match sidebarTryBody st statusRes summaryRes with
  | .ok s => { s with isLoading := false }
  | .error (e, s) => { s with error := some e, isLoading := false }

/-- The sidebar renders nothing when AI is unavailable (AISidebar.tsx lines
69–71). -/
def sidebarRenders (st : SidebarState) : Bool :=
  st.isAvailable

/-! ### Empty states for missing source data (records/page.tsx, standings/page.tsx) -/

/-- One all-time game record entry as the records page displays it. -/
structure GameRecord where
  manager : String
  team : String
  score : ℚ
  season : ℕ
  week : ℕ
deriving DecidableEq

/-- The all-time records payload fields the records tab branches on. -/
structure AllTimeRecords where
  highest_score : Option GameRecord
  lowest_score : Option GameRecord
deriving DecidableEq

/-- What the all-time records tab shows. -/
inductive RecordsTabView where
  | placeholderMsg (text : String)
  | content (r : AllTimeRecords)
deriving DecidableEq

/-- The placeholder copy of records/page.tsx lines 124–126. -/
def recordsPlaceholder : String :=
  "Matchup data not yet loaded. Records will appear once weekly matchups are synced."

/-- Embeds records/page.tsx lines 122–209: a null fetch result or an absent
highest_score field renders the placeholder; otherwise the record cards. -/
def recordsTabView (records : Option AllTimeRecords) : RecordsTabView :=
  match records with
  | none => .placeholderMsg recordsPlaceholder
  | some r =>
    match r.highest_score with
    | none => .placeholderMsg recordsPlaceholder
    | some _ => .content r

/-- The standings-page state that loadSeasonData updates: the standings payload
and the optional season-records payload. -/
structure SeasonPageState (α β : Type) where
  standings : Option α
  seasonRecords : Option β
deriving DecidableEq

/-- Embeds loadSeasonData (standings/page.tsx lines 56–80): standings load
first; the season-records fetch has its own try/catch which resets the records
to null on failure; a standings failure leaves the state untouched (outer
catch only logs). -/
def loadSeasonData {α β : Type} (st : SeasonPageState α β)
    (standingsRes : FetchResult α) (recordsRes : FetchResult β) :
    SeasonPageState α β :=
  match standingsRes with
  | .err _ => st
  | .ok s =>
    match recordsRes with
    | .ok r => { standings := some s, seasonRecords := some r }
    | .err _ => { standings := some s, seasonRecords := none }

/-! ### Draft grading (spec §4.5) and its presentation (drafts/page.tsx) -/

/-- A draft pick with the player's resulting season points when tracked
(spec §3); picks for unplayed/injured players carry none. -/
structure DraftPick where
  pick_number : ℕ
  member : ℕ
  season_points : Option ℚ
deriving DecidableEq

/-- Letter grades of the draft report card. -/
inductive Grade where
  | APlus | A | B | C | D | F
deriving DecidableEq

/-- Modelled from the spec: the fixed rank-differential-to-letter mapping of
spec §4.5 (the exact cutoffs are an open question there; these are fixed
representative thresholds). -/
def gradeFromDiff (d : ℤ) : Grade :=
  if 20 ≤ d then .APlus
  else if 10 ≤ d then .A
  else if 0 ≤ d then .B
  else if -10 ≤ d then .C
  else if -20 ≤ d then .D
  else .F

/-- The picks that carry season-points data and so take part in grading. -/
def gradablePicks (picks : List DraftPick) : List DraftPick :=
  picks.filter fun p => p.season_points.isSome

/-- Performance rank of a point total among the gradable picks (1-based,
points descending). -/
def perfRank (picks : List DraftPick) (pts : ℚ) : ℕ :=
  1 + ((gradablePicks picks).filter fun q =>
    decide (pts < q.season_points.getD 0)).length

/-- Draft-order rank of a pick among the gradable picks (1-based, pick number
ascending). -/
def draftRank (picks : List DraftPick) (p : DraftPick) : ℕ :=
  1 + ((gradablePicks picks).filter fun q =>
    decide (q.pick_number < p.pick_number)).length

/-- Modelled from the spec: grade assignment compares a pick's draft-order
rank to its performance rank (spec §4.5); a pick lacking season-points data is
excluded from grading and carries no grade. -/
def gradePick (picks : List DraftPick) (p : DraftPick) : Option Grade :=
  match p.season_points with
  | none => none
  | some pts =>
    some (gradeFromDiff ((draftRank picks p : ℤ) - (perfRank picks pts : ℤ)))

/-- What the report card shows in the grade slot. -/
inductive GradeBadgeView where
  | badge (grade : String)
  | noGradeText
deriving DecidableEq

/-- Embeds drafts/page.tsx lines 263–271: an overall grade renders as a badge,
an absent one as the literal "No grade" text. -/
def renderOverallGrade (g : Option String) : GradeBadgeView :=
  match g with
  | some s => .badge s
  | none => .noGradeText

/-- Embeds drafts/page.tsx lines 335–341: a pick's grade badge is emitted only
when the pick carries a grade; otherwise it is omitted. -/
def renderPickGrade (g : Option String) : Option GradeBadgeView :=
  match g with
  | some s => some (.badge s)
  | none => none

/-- Concrete draft used by the grading witness. -/
def demoPicks : List DraftPick :=
  [⟨1, 1, some 200⟩, ⟨2, 2, none⟩, ⟨3, 3, some 250⟩]

/-! ### The two API clients (lib/api.ts and the unnamed client) -/

/-- An HTTP response as the shared fetch helper inspects it. -/
structure HttpResponse (α : Type) where
  ok : Bool
  status : ℕ
  body : α
deriving DecidableEq

/-- Embeds fetchAPI (lib/api.ts lines 8–18; identical in the unnamed client
lines 9–19), through which every GET helper of both clients runs: a non-ok
response throws an Error whose message is "API error: " followed by the
status code; an ok response resolves to the parsed JSON body unchanged. -/
def fetchAPI {α : Type} (r : HttpResponse α) : Except String α :=
  if r.ok then .ok r.body
  else .error ("API error: " ++ toString r.status)

namespace ApiA

/-- Default base URL of lib/api.ts (line 6). -/
def defaultApiBase : String :=
  "https://commish-command-production.up.railway.app"

/-- Endpoint paths constructed by lib/api.ts lines 21–101 (the week and limit
arguments keep the JS truthiness of the source: a week of 0 adds no query). -/
def getLeague : String := "/api/leagues"

def getSeasons : String := "/api/leagues/seasons"

def getSeason (year : ℕ) : String := "/api/leagues/seasons/" ++ toString year

def getStandings (year : ℕ) : String := "/api/leagues/standings/" ++ toString year

def getChampions : String := "/api/leagues/champions"

def getMembers : String := "/api/members"

def getMember (id : ℕ) : String := "/api/members/" ++ toString id

def getMemberH2H (id : ℕ) : String := "/api/members/" ++ toString id ++ "/head-to-head"

def getMemberRivalries (id : ℕ) : String := "/api/members/" ++ toString id ++ "/rivalries"

def getSeasonMatchups (year : ℕ) (week : Option ℕ) : String :=
  match week with
  | some w =>
    if w = 0 then "/api/matchups/season/" ++ toString year
    else "/api/matchups/season/" ++ toString year ++ "?week=" ++ toString w
  | none => "/api/matchups/season/" ++ toString year

def getPlayoffMatchups (year : ℕ) : String := "/api/matchups/playoffs/" ++ toString year

def getCloseGames (limit : ℕ) : String :=
  "/api/matchups/close-games?limit=" ++ toString limit

def getBlowouts (limit : ℕ) : String :=
  "/api/matchups/blowouts?limit=" ++ toString limit

def getHighestScores (limit : ℕ) : String :=
  "/api/matchups/highest-scores?limit=" ++ toString limit

def getLowestScores (limit : ℕ) : String :=
  "/api/matchups/lowest-scores?limit=" ++ toString limit

def getAllTimeRecords : String := "/api/records/all-time"

def getH2HMatrix : String := "/api/records/h2h-matrix"

def getLuckAnalysis : String := "/api/records/luck-analysis"

def getPowerRankings : String := "/api/records/power-rankings"

end ApiA

namespace ApiB

/-- Default base URL of the unnamed API client (line 7). -/
def defaultApiBase : String := "http://localhost:8000"

/-- Endpoint paths constructed by the unnamed client lines 22–106. -/
def getLeague : String := "/api/leagues"

def getSeasons : String := "/api/leagues/seasons"

def getSeason (year : ℕ) : String := "/api/leagues/seasons/" ++ toString year

def getStandings (year : ℕ) : String := "/api/leagues/standings/" ++ toString year

def getChampions : String := "/api/leagues/champions"

def getMembers : String := "/api/members"

def getMember (id : ℕ) : String := "/api/members/" ++ toString id

def getMemberH2H (id : ℕ) : String := "/api/members/" ++ toString id ++ "/head-to-head"

def getMemberRivalries (id : ℕ) : String := "/api/members/" ++ toString id ++ "/rivalries"

def getSeasonMatchups (year : ℕ) (week : Option ℕ) : String :=
  match week with
  | some w =>
    if w = 0 then "/api/matchups/season/" ++ toString year
    else "/api/matchups/season/" ++ toString year ++ "?week=" ++ toString w
  | none => "/api/matchups/season/" ++ toString year

def getPlayoffMatchups (year : ℕ) : String := "/api/matchups/playoffs/" ++ toString year

def getCloseGames (limit : ℕ) : String :=
  "/api/matchups/close-games?limit=" ++ toString limit

def getBlowouts (limit : ℕ) : String :=
  "/api/matchups/blowouts?limit=" ++ toString limit

def getHighestScores (limit : ℕ) : String :=
  "/api/matchups/highest-scores?limit=" ++ toString limit

def getLowestScores (limit : ℕ) : String :=
  "/api/matchups/lowest-scores?limit=" ++ toString limit

def getAllTimeRecords : String := "/api/records/all-time"

def getH2HMatrix : String := "/api/records/h2h-matrix"

def getLuckAnalysis : String := "/api/records/luck-analysis"

def getPowerRankings : String := "/api/records/power-rankings"

end ApiB

/-! ### The NFL-teams page (teams/page.tsx) -/

/-- One fetched NFL-team rollup row as the teams page consumes it; fields the
backend may omit are optional. -/
structure NFLTeam where
  abbr : String
  avg_grade : Option String
  total_picks : Option ℚ
  total_points : Option ℚ
  unique_managers : Option ℚ
deriving DecidableEq

/-- The NFL_NAMES table of teams/page.tsx lines 18–33. -/
def NFL_NAMES : List (String × String) :=
  [("ARI", "Arizona Cardinals"), ("ATL", "Atlanta Falcons"),
   ("BAL", "Baltimore Ravens"), ("BUF", "Buffalo Bills"),
   ("CAR", "Carolina Panthers"), ("CHI", "Chicago Bears"),
   ("CIN", "Cincinnati Bengals"), ("CLE", "Cleveland Browns"),
   ("DAL", "Dallas Cowboys"), ("DEN", "Denver Broncos"),
   ("DET", "Detroit Lions"), ("GB", "Green Bay Packers"),
   ("HOU", "Houston Texans"), ("IND", "Indianapolis Colts"),
   ("JAX", "Jacksonville Jaguars"), ("KC", "Kansas City Chiefs"),
   ("LAC", "Los Angeles Chargers"), ("LAR", "Los Angeles Rams"),
   ("LV", "Las Vegas Raiders"), ("MIA", "Miami Dolphins"),
   ("MIN", "Minnesota Vikings"), ("NE", "New England Patriots"),
   ("NO", "New Orleans Saints"), ("NYG", "New York Giants"),
   ("NYJ", "New York Jets"), ("PHI", "Philadelphia Eagles"),
   ("PIT", "Pittsburgh Steelers"), ("SEA", "Seattle Seahawks"),
   ("SF", "San Francisco 49ers"), ("TB", "Tampa Bay Buccaneers"),
   ("TEN", "Tennessee Titans"), ("WAS", "Washington Commanders"),
   ("OAK", "Oakland Raiders"), ("SD", "San Diego Chargers"),
   ("STL", "St. Louis Rams"), ("JAC", "Jacksonville Jaguars")]

/-- JS String.prototype.toLowerCase on the ASCII data the page handles. -/
def jsToLower (s : String) : String := s.map Char.toLower

/-- Whether list `q` begins list `l` (character-wise). -/
def beginsWith : List Char → List Char → Bool
  | [], _ => true
  | _ :: _, [] => false
  | a :: as, b :: bs => a == b && beginsWith as bs

/-- Whether list `q` occurs contiguously inside list `l`. -/
def occursIn (q l : List Char) : Bool :=
  match l with
  | [] => q.isEmpty
  | c :: rest => beginsWith q (c :: rest) || occursIn q rest

/-- JS String.prototype.includes: `q` is a contiguous substring of `hay`. -/
def strContains (hay q : String) : Bool := occursIn q.data hay.data

/-- The filter predicate of teams/page.tsx lines 60–65: keep the team when the
filter is empty, or when its abbreviation or resolved full name contains the
filter case-insensitively. -/
def teamMatchesFilter (filter : String) (t : NFLTeam) : Bool :=
  if filter = "" then true
  else
    let q := jsToLower filter
    let name := jsToLower ((NFL_NAMES.lookup t.abbr).getD t.abbr)
    strContains (jsToLower t.abbr) q || strContains name q

/-- The sortable fields of the teams page (teams/page.tsx line 35). -/
inductive SortField where
  | total_picks
  | avg_grade
  | total_points
  | unique_managers
deriving DecidableEq

/-- The gradeOrder table of teams/page.tsx line 57, with the JS `|| 0` default
for a missing or unrecognized grade. -/
def gradeOrder (g : String) : ℚ :=
  if g = "A+" then 6
  else if g = "A" then 5
  else if g = "B" then 4
  else if g = "C" then 3
  else if g = "D" then 2
  else if g = "F" then 1
  else 0

/-- The numeric sort key of teams/page.tsx lines 66–71: the grade order for
avg_grade, otherwise the field value, with missing values treated as 0. -/
def sortKey (f : SortField) (t : NFLTeam) : ℚ :=
  match f with
  | .avg_grade =>
    match t.avg_grade with
    | some g => gradeOrder g
    | none => 0
  | .total_picks => t.total_picks.getD 0
  | .total_points => t.total_points.getD 0
  | .unique_managers => t.unique_managers.getD 0

/-- Descending order on the selected sort key (the comparator
`(b, a) => key b - key a` of teams/page.tsx lines 66–71). -/
def byKeyDesc (f : SortField) (a b : NFLTeam) : Prop :=
  sortKey f b ≤ sortKey f a

instance (f : SortField) : DecidableRel (byKeyDesc f) := fun a b => by
  unfold byKeyDesc; infer_instance

instance (f : SortField) : IsTotal NFLTeam (byKeyDesc f) where
  total a b := by unfold byKeyDesc; exact le_total _ _

instance (f : SortField) : IsTrans NFLTeam (byKeyDesc f) where
  trans a b c hab hbc := le_trans hbc hab

/-- The displayed list of teams/page.tsx lines 59–71: the fetched teams
filtered by the query and sorted by the selected field, descending. -/
def displayedTeams (filter : String) (f : SortField) (teams : List NFLTeam) :
    List NFLTeam :=
  List.insertionSort (byKeyDesc f) (teams.filter (teamMatchesFilter filter))

end Commish

namespace Commish

/-! ### Claim theorems -/

/-- C1: the power score is the weighted linear combination with weights
0.35/0.25/0.20/0.10/0.10 over components scaled to 0–100; the weights sum to
exactly 1 and the resulting power score lies in [0, 100]. -/
theorem powerScore_weights_sum_one_and_bounded (m : MemberCareer) (h : m.scaled) :
    powerWeights.sum = 1 ∧ 0 ≤ powerScore m ∧ powerScore m ≤ 100 := by
  obtain ⟨h1, h2, h3, h4, h5, h6, h7, h8, h9, h10⟩ := h
  refine ⟨by norm_num [powerWeights], ?_, ?_⟩ <;>
    · unfold powerScore
      linarith

/-- Witness for C1 at a concrete career record. -/
theorem powerScore_weights_sum_one_and_bounded_witness :
    MemberCareer.scaled ⟨60, 25, 50, 70, 80⟩ ∧
      (powerWeights.sum = 1 ∧ 0 ≤ powerScore ⟨60, 25, 50, 70, 80⟩ ∧
        powerScore ⟨60, 25, 50, 70, 80⟩ ≤ 100) :=
  ⟨by decide, powerScore_weights_sum_one_and_bounded ⟨60, 25, 50, 70, 80⟩ (by decide)⟩

/-- C2: for distinct members the head-to-head matrix is antisymmetric — the
row record of `x` against `y` has exactly the wins that `y`'s record against
`x` counts as losses and vice versa — and the matrix contains no self-pair. -/
theorem h2h_matrix_antisymmetric (members : List ℕ) (ms : List Matchup)
    (x y : ℕ) (hxy : x ≠ y) :
    ((h2hRecord ms x y).wins = (h2hRecord ms y x).losses ∧
      (h2hRecord ms x y).losses = (h2hRecord ms y x).wins) ∧
    ∀ p ∈ h2hMatrix members ms, p.1 ≠ p.2.1 := by
  have hbase : ms.filter (involvesPair x y) = ms.filter (involvesPair y x) := by
    apply List.filter_congr
    intro m _
    unfold involvesPair
    rw [Bool.or_comm]
  constructor
  · constructor
    · show (List.filter _ (ms.filter (involvesPair x y))).length =
        (List.filter _ (ms.filter (involvesPair y x))).length
      rw [hbase]
    · show (List.filter _ (ms.filter (involvesPair x y))).length =
        (List.filter _ (ms.filter (involvesPair y x))).length
      rw [hbase]
  · intro p hp
    simp only [h2hMatrix, List.mem_flatMap, List.mem_map, List.mem_filter,
      decide_eq_true_eq] at hp
    obtain ⟨a, _, b, ⟨_, hba⟩, rfl⟩ := hp
    exact fun h => hba h.symm

/-- Witness for C2 on a concrete one-game history. -/
theorem h2h_matrix_antisymmetric_witness :
    (1 : ℕ) ≠ 2 ∧
      (((h2hRecord demoWeek 1 2).wins = (h2hRecord demoWeek 2 1).losses ∧
        (h2hRecord demoWeek 1 2).losses = (h2hRecord demoWeek 2 1).wins) ∧
      ∀ p ∈ h2hMatrix [1, 2] demoWeek, p.1 ≠ p.2.1) :=
  ⟨by decide, h2h_matrix_antisymmetric [1, 2] demoWeek 1 2 (by decide)⟩

/-- C3: every row of the luck analysis has luck factor exactly actual wins
minus expected wins, with expected wins the sum over the member's team-weeks of
the number of other teams its score would have beaten; and the week's
would-beat count is monotone non-decreasing in the posted score. -/
theorem luck_factor_exact_and_monotone (members : List ℕ)
    (weeks : List (List Matchup)) :
    (∀ e ∈ luckAnalysis members weeks,
        e.luck_factor = (e.actual_wins : ℤ) - (e.expected_wins : ℤ) ∧
        e.expected_wins = (weeks.map (expectedWinsWeek e.member)).sum) ∧
    ∀ (x : ℕ) (w : List (ℕ × ℚ)) (s₁ s₂ : ℚ), s₁ ≤ s₂ →
        wouldBeatCount s₁ x w ≤ wouldBeatCount s₂ x w := by
  constructor
  · intro e he
    simp only [luckAnalysis, List.mem_map] at he
    obtain ⟨a, _, rfl⟩ := he
    exact ⟨rfl, rfl⟩
  · intro x w s₁ s₂ h
    apply List.Sublist.length_le
    apply List.monotone_filter_right
    intro a ha
    simp only [Bool.and_eq_true, decide_eq_true_eq] at ha ⊢
    exact ⟨ha.1, lt_of_lt_of_le ha.2 h⟩

/-- Witness for C3: a concrete luck-analysis row and a concrete monotone pair
of scores. -/
theorem luck_factor_exact_and_monotone_witness :
    (luckEntry [demoWeek] 1 ∈ luckAnalysis [1, 2] [demoWeek] ∧
      (luckEntry [demoWeek] 1).luck_factor =
        ((luckEntry [demoWeek] 1).actual_wins : ℤ) -
          ((luckEntry [demoWeek] 1).expected_wins : ℤ) ∧
      (luckEntry [demoWeek] 1).expected_wins =
        ([demoWeek].map (expectedWinsWeek (luckEntry [demoWeek] 1).member)).sum) ∧
    ((1 : ℚ) ≤ 2 ∧ wouldBeatCount 1 1 [(2, 0)] ≤ wouldBeatCount 2 1 [(2, 0)]) :=
  ⟨⟨by decide,
      (luck_factor_exact_and_monotone [1, 2] [demoWeek]).1 (luckEntry [demoWeek] 1)
        (by decide)⟩,
    by decide,
    (luck_factor_exact_and_monotone [] []).2 1 [(2, 0)] 1 2 (by decide)⟩

/-- C4: the standings output is sorted by wins descending with ties broken by
points-for descending, and a team that no team out-wins and whose points-for is
strictly the league's highest is ranked first. -/
theorem standings_sorted_and_top (teams : List TeamSeason) (t : TeamSeason)
    (ht : t ∈ teams)
    (hw : ∀ u ∈ teams, u.wins ≤ t.wins)
    (hp : ∀ u ∈ teams, u ≠ t → u.points_for < t.points_for) :
    List.Sorted standingsLE (standings teams) ∧
      (standings teams).head? = some t := by
  have hsorted : List.Sorted standingsLE (standings teams) :=
    List.sorted_insertionSort standingsLE teams
  refine ⟨hsorted, ?_⟩
  have hperm : List.Perm (standings teams) teams :=
    List.perm_insertionSort standingsLE teams
  have htmem : t ∈ standings teams := hperm.mem_iff.2 ht
  cases hst : standings teams with
  | nil => rw [hst] at htmem; simp at htmem
  | cons hd tl =>
    rw [hst] at htmem hsorted
    by_cases hht : hd = t
    · simp [hht]
    · have hhmem : hd ∈ teams := hperm.subset (by rw [hst]; exact List.mem_cons_self _ _)
      have htl : t ∈ tl := by
        rcases List.mem_cons.mp htmem with h1 | h1
        · exact absurd h1.symm hht
        · exact h1
      have hrel : standingsLE hd t := (List.sorted_cons.mp hsorted).1 t htl
      have hwle := hw hd hhmem
      have hplt := hp hd hhmem hht
      unfold standingsLE at hrel
      rcases hrel with hlt | ⟨_, hle⟩
      · omega
      · exact absurd hle (not_le.mpr hplt)

/-- Witness for C4: in the concrete `demoTeams` season the 10-4 team with the
highest points-for heads the standings. -/
theorem standings_sorted_and_top_witness :
    (demoTopTeam ∈ demoTeams ∧
      (∀ u ∈ demoTeams, u.wins ≤ demoTopTeam.wins) ∧
      ∀ u ∈ demoTeams, u ≠ demoTopTeam → u.points_for < demoTopTeam.points_for) ∧
    (List.Sorted standingsLE (standings demoTeams) ∧
      (standings demoTeams).head? = some demoTopTeam) :=
  ⟨⟨by decide, by decide, by decide⟩,
    standings_sorted_and_top demoTeams demoTopTeam (by decide) (by decide) (by decide)⟩

/-- C5: an unavailable AI service only clears the capability flag (the page
then renders without the AI block), and a thrown error — from the status check
or the narrative request — is caught: the page fetcher ends with loading
cleared and the flag and narrative intact, and the sidebar stores the message
in its error state instead of propagating. -/
theorem ai_unavailable_flag_and_errors_caught :
    (∀ (st : AIState) (sum : FetchResult String),
        (fetchAINarrative st (.ok ⟨false⟩) sum).aiAvailable = false ∧
        rendersAIBlock (fetchAINarrative st (.ok ⟨false⟩) sum) = false ∧
        (fetchAINarrative st (.ok ⟨false⟩) sum).aiNarrative = st.aiNarrative) ∧
    (∀ (st : AIState) (stat : FetchResult AIStatus) (sum : FetchResult String),
        (fetchAINarrative st stat sum).aiLoading = false) ∧
    (∀ (st : AIState) (e : String) (sum : FetchResult String),
        (fetchAINarrative st (.err e) sum).aiAvailable = st.aiAvailable ∧
        (fetchAINarrative st (.err e) sum).aiNarrative = st.aiNarrative) ∧
    (∀ (st : AIState) (e : String),
        (fetchAINarrative st (.ok ⟨true⟩) (.err e)).aiAvailable = st.aiAvailable ∧
        (fetchAINarrative st (.ok ⟨true⟩) (.err e)).aiNarrative = none) ∧
    (∀ (st : SidebarState) (sum : FetchResult String),
        (fetchSummary st (.ok ⟨false⟩) sum).isAvailable = false ∧
        sidebarRenders (fetchSummary st (.ok ⟨false⟩) sum) = false) ∧
    (∀ (st : SidebarState) (e : String),
        (fetchSummary st (.err e) (.ok "")).error = some e ∧
        (fetchSummary st (.err e) (.ok "")).isLoading = false) ∧
    (∀ (st : SidebarState) (e : String),
        (fetchSummary st (.ok ⟨true⟩) (.err e)).error = some e ∧
        (fetchSummary st (.ok ⟨true⟩) (.err e)).isLoading = false ∧
        (fetchSummary st (.ok ⟨true⟩) (.err e)).isAvailable = st.isAvailable) := by
  refine ⟨fun st sum => ⟨rfl, rfl, rfl⟩, fun st stat sum => rfl,
    fun st e sum => ⟨rfl, rfl⟩, fun st e => ⟨rfl, rfl⟩,
    fun st sum => ⟨rfl, rfl⟩, fun st e => ⟨rfl, rfl⟩,
    fun st e => ⟨rfl, rfl, rfl⟩⟩

/-- C6: missing or partial source data degrades to an explicit empty state —
the records tab renders the placeholder when the payload is null or has no
highest_score, and a failed season-records fetch leaves the loaded standings
in place with the records reset to null; a failed standings fetch leaves the
page state untouched. -/
theorem missing_data_degrades_to_empty_state :
    recordsTabView none = .placeholderMsg recordsPlaceholder ∧
    (∀ low : Option GameRecord,
        recordsTabView (some ⟨none, low⟩) = .placeholderMsg recordsPlaceholder) ∧
    (∀ (r : AllTimeRecords) (g : GameRecord), r.highest_score = some g →
        recordsTabView (some r) = .content r) ∧
    (∀ {α β : Type} (st : SeasonPageState α β) (s : α) (e : String),
        (loadSeasonData st (.ok s) (.err e)).standings = some s ∧
        (loadSeasonData st (.ok s) (.err e)).seasonRecords = none) ∧
    (∀ {α β : Type} (st : SeasonPageState α β) (e : String)
        (rr : FetchResult β), loadSeasonData st (.err e) rr = st) := by
  refine ⟨rfl, fun low => rfl, ?_, fun st s e => ⟨rfl, rfl⟩, fun st e rr => rfl⟩
  intro r g hg
  simp [recordsTabView, hg]

/-- Witness for C6 at a concrete records payload with a highest score. -/
theorem missing_data_degrades_to_empty_state_witness :
    (AllTimeRecords.mk (some ⟨"A", "T", 150, 2020, 3⟩) none).highest_score =
        some ⟨"A", "T", 150, 2020, 3⟩ ∧
      recordsTabView (some (AllTimeRecords.mk (some ⟨"A", "T", 150, 2020, 3⟩) none)) =
        .content (AllTimeRecords.mk (some ⟨"A", "T", 150, 2020, 3⟩) none) :=
  ⟨rfl, missing_data_degrades_to_empty_state.2.2.1
    (AllTimeRecords.mk (some ⟨"A", "T", 150, 2020, 3⟩) none)
    ⟨"A", "T", 150, 2020, 3⟩ rfl⟩

/-- C7: a draft pick lacking season-points data is excluded from grading — it
carries no grade — while every pick with points data is graded by the fixed
rank-differential mapping; the report card renders "No grade" for an absent
overall grade and omits the grade badge of an ungraded pick. -/
theorem ungraded_picks_excluded (picks : List DraftPick) (p : DraftPick)
    (hp : p.season_points = none) :
    gradePick picks p = none ∧
    renderOverallGrade none = .noGradeText ∧
    renderPickGrade none = none ∧
    ∀ (q : DraftPick) (pts : ℚ), q.season_points = some pts →
      gradePick picks q =
        some (gradeFromDiff ((draftRank picks q : ℤ) - (perfRank picks pts : ℤ))) := by
  refine ⟨?_, rfl, rfl, ?_⟩
  · simp [gradePick, hp]
  · intro q pts hq
    simp [gradePick, hq]

/-- Witness for C7 on a concrete draft with an ungraded second pick. -/
theorem ungraded_picks_excluded_witness :
    DraftPick.season_points ⟨2, 2, none⟩ = none ∧
      (gradePick demoPicks ⟨2, 2, none⟩ = none ∧
        renderOverallGrade none = .noGradeText ∧
        renderPickGrade none = none ∧
        ∀ (q : DraftPick) (pts : ℚ), q.season_points = some pts →
          gradePick demoPicks q =
            some (gradeFromDiff
              ((draftRank demoPicks q : ℤ) - (perfRank demoPicks pts : ℤ)))) :=
  ⟨rfl, ungraded_picks_excluded demoPicks ⟨2, 2, none⟩ rfl⟩

/-- C8: for every function name defined in both API clients and every argument
value, the two clients construct the identical request path and query string
relative to the base URL; their default base URLs differ. -/
theorem api_clients_agree_on_shared_surface :
    ApiA.getLeague = ApiB.getLeague ∧
    ApiA.getSeasons = ApiB.getSeasons ∧
    (∀ year, ApiA.getSeason year = ApiB.getSeason year) ∧
    (∀ year, ApiA.getStandings year = ApiB.getStandings year) ∧
    ApiA.getChampions = ApiB.getChampions ∧
    ApiA.getMembers = ApiB.getMembers ∧
    (∀ id, ApiA.getMember id = ApiB.getMember id) ∧
    (∀ id, ApiA.getMemberH2H id = ApiB.getMemberH2H id) ∧
    (∀ id, ApiA.getMemberRivalries id = ApiB.getMemberRivalries id) ∧
    (∀ year week, ApiA.getSeasonMatchups year week = ApiB.getSeasonMatchups year week) ∧
    (∀ year, ApiA.getPlayoffMatchups year = ApiB.getPlayoffMatchups year) ∧
    (∀ limit, ApiA.getCloseGames limit = ApiB.getCloseGames limit) ∧
    (∀ limit, ApiA.getBlowouts limit = ApiB.getBlowouts limit) ∧
    (∀ limit, ApiA.getHighestScores limit = ApiB.getHighestScores limit) ∧
    (∀ limit, ApiA.getLowestScores limit = ApiB.getLowestScores limit) ∧
    ApiA.getAllTimeRecords = ApiB.getAllTimeRecords ∧
    ApiA.getH2HMatrix = ApiB.getH2HMatrix ∧
    ApiA.getLuckAnalysis = ApiB.getLuckAnalysis ∧
    ApiA.getPowerRankings = ApiB.getPowerRankings ∧
    (ApiA.defaultApiBase == ApiB.defaultApiBase) = false :=
  ⟨rfl, rfl, fun _ => rfl, fun _ => rfl, rfl, rfl, fun _ => rfl, fun _ => rfl,
    fun _ => rfl, fun _ _ => rfl, fun _ => rfl, fun _ => rfl, fun _ => rfl,
    fun _ => rfl, fun _ => rfl, rfl, rfl, rfl, rfl, by decide⟩

/-- C9: the shared GET helper throws exactly when the response is not ok, the
thrown message contains the numeric status code, and an ok response resolves
to the parsed body unchanged. -/
theorem fetchAPI_error_iff_not_ok {α : Type} (r : HttpResponse α) :
    ((∃ e, fetchAPI r = .error e) ↔ r.ok = false) ∧
    (r.ok = false →
      ∃ pre post, fetchAPI r = .error (pre ++ toString r.status ++ post)) ∧
    (r.ok = true → fetchAPI r = .ok r.body) := by
  refine ⟨⟨?_, ?_⟩, ?_, ?_⟩
  · rintro ⟨e, he⟩
    by_contra hok
    rw [Bool.not_eq_false] at hok
    simp [fetchAPI, hok] at he
  · intro hok
    exact ⟨"API error: " ++ toString r.status, by simp [fetchAPI, hok]⟩
  · intro hok
    exact ⟨"API error: ", "", by simp [fetchAPI, hok]⟩
  · intro hok
    simp [fetchAPI, hok]

/-- Witness for C9 at a concrete failing and a concrete ok response. -/
theorem fetchAPI_error_iff_not_ok_witness :
    ((⟨false, 404, 0⟩ : HttpResponse ℕ).ok = false ∧
      ∃ pre post, fetchAPI (⟨false, 404, 0⟩ : HttpResponse ℕ) =
        .error (pre ++ toString (404 : ℕ) ++ post)) ∧
    ((⟨true, 200, 7⟩ : HttpResponse ℕ).ok = true ∧
      fetchAPI (⟨true, 200, 7⟩ : HttpResponse ℕ) = .ok 7) :=
  ⟨⟨rfl, (fetchAPI_error_iff_not_ok (⟨false, 404, 0⟩ : HttpResponse ℕ)).2.1 rfl⟩,
    ⟨rfl, (fetchAPI_error_iff_not_ok (⟨true, 200, 7⟩ : HttpResponse ℕ)).2.2 rfl⟩⟩

/-- C10: the displayed NFL-teams list is a permutation of exactly the fetched
teams matching the case-insensitive filter (no team duplicated or invented),
sorted descending by the selected sort key; the grade order is the fixed total
order A+ > A > B > C > D > F, and a missing or unrecognized grade keys to 0
and therefore sorts last. -/
theorem teams_page_filter_sort (filter : String) (f : SortField)
    (teams : List NFLTeam) :
    List.Perm (displayedTeams filter f teams)
        (teams.filter (teamMatchesFilter filter)) ∧
    (∀ t ∈ displayedTeams filter f teams,
        t ∈ teams ∧ teamMatchesFilter filter t = true) ∧
    List.Sorted (byKeyDesc f) (displayedTeams filter f teams) ∧
    (gradeOrder "F" < gradeOrder "D" ∧ gradeOrder "D" < gradeOrder "C" ∧
      gradeOrder "C" < gradeOrder "B" ∧ gradeOrder "B" < gradeOrder "A" ∧
      gradeOrder "A" < gradeOrder "A+") ∧
    (∀ g : String, g ≠ "A+" → g ≠ "A" → g ≠ "B" → g ≠ "C" → g ≠ "D" →
      g ≠ "F" → gradeOrder g = 0 ∧ gradeOrder g < gradeOrder "F") ∧
    (∀ t : NFLTeam, t.avg_grade = none → sortKey .avg_grade t = 0) := by
  refine ⟨List.perm_insertionSort _ _, ?_, List.sorted_insertionSort _ _,
    ⟨by decide, by decide, by decide, by decide, by decide⟩, ?_, ?_⟩
  · intro t ht
    have hmem : t ∈ teams.filter (teamMatchesFilter filter) :=
      (List.perm_insertionSort _ _).subset ht
    rw [List.mem_filter] at hmem
    exact hmem
  · intro g h1 h2 h3 h4 h5 h6
    constructor
    · simp [gradeOrder, h1, h2, h3, h4, h5, h6]
    · simp only [gradeOrder, h1, h2, h3, h4, h5, h6, if_false]
      decide
  · intro t ht
    simp [sortKey, ht]

/-- Witness for C10 at a concrete filter, sort field and team list, and at an
unrecognized grade string. -/
theorem teams_page_filter_sort_witness :
    (("Z+" : String) ≠ "A+" ∧ ("Z+" : String) ≠ "A" ∧ ("Z+" : String) ≠ "B" ∧
      ("Z+" : String) ≠ "C" ∧ ("Z+" : String) ≠ "D" ∧ ("Z+" : String) ≠ "F") ∧
    (gradeOrder "Z+" = 0 ∧ gradeOrder "Z+" < gradeOrder "F") ∧
    (NFLTeam.avg_grade ⟨"KC", none, some 3, some 100, some 2⟩ = none ∧
      sortKey .avg_grade ⟨"KC", none, some 3, some 100, some 2⟩ = 0) :=
  ⟨⟨by decide, by decide, by decide, by decide, by decide, by decide⟩,
    (teams_page_filter_sort "" .avg_grade []).2.2.2.2.1 "Z+" (by decide)
      (by decide) (by decide) (by decide) (by decide) (by decide),
    ⟨rfl, (teams_page_filter_sort "" .avg_grade []).2.2.2.2.2
      ⟨"KC", none, some 3, some 100, some 2⟩ rfl⟩⟩

end Commish
